import Mathlib

/-!
Shallow embedding of the Pacman dot-collector simulation from
`src/main.rs` (the ggez desktop variant; `src/lib.rs` reuses the same
`GameState`).  Scalar values that the source stores as `f32` are embedded
as exact rationals (`ℚ`); the source's arithmetic on them is plain
addition, multiplication, division by the constant cell size, truncation
(`fract`) and comparisons, all of which are mirrored exactly.  The one
place the source takes a square root, `Vec2::length`, is only ever used
in comparisons against a nonnegative bound, which are embedded as the
equivalent comparisons of squares; theorems about "Euclidean distance"
relate them back to `Real.sqrt`.  The `i32` score is embedded as `ℤ`
(its reachable range, shown below, is 0..3240, far from overflow).

On positions, distances and the score this exact embedding coincides
with the `f32` program: positions stay small integer multiples of 5,
squared distances are integers below 2^24, and all of that is exact in
binary32.  The one place where `f32` rounding is visible in behavior is
the mouth oscillator, whose step `0.2_f32` is not a dyadic rational:
there the embedding models IEEE-754 binary32 arithmetic explicitly
(`roundF32`, `fadd`, `fsub` below), with `MOUTH_SPEED` the exact value
of `0.2_f32`.
-/

attribute [local semireducible] Rat.add Rat.mul Rat.inv Rat.sub

/-- Source constant `GRID_SIZE: i32 = 20`. -/
def GRID_SIZE : ℕ := 20

/-- Source constant `CELL_SIZE: f32 = 30.0`. -/
def CELL_SIZE : ℚ := 30

/-- Source constant `PACMAN_SPEED: f32 = 5.0`. -/
def PACMAN_SPEED : ℚ := 5

/-- Source constant `MOUTH_SPEED: f32 = 0.2`.  The literal `0.2` is not
representable in binary32; its rounded value is exactly
`13421773 * 2 ^ (-26) = 0.20000000298023223876953125`, which is what the
program adds and subtracts each tick. -/
def MOUTH_SPEED : ℚ := 13421773 / 67108864

/-- Source constant `MAX_MOUTH_ANGLE: f32 = 1.0`. -/
def MAX_MOUTH_ANGLE : ℚ := 1

/-- Embedding of `glam::Vec2`, with exact rational coordinates. -/
structure Vec2 where
  x : ℚ
  y : ℚ
deriving DecidableEq, Repr

/-- Truncation toward zero, as Rust's `f32::trunc`. -/
def rtrunc (q : ℚ) : ℤ := if 0 ≤ q then ⌊q⌋ else ⌈q⌉

/-- Rust's `f32::fract`: `self - self.trunc()`. -/
def fract (q : ℚ) : ℚ := q - (rtrunc q : ℚ)

/-- Squared Euclidean distance between two points; the source's
`(a - b).length()` is `Real.sqrt` of this. -/
def dist2 (a b : Vec2) : ℚ := (a.x - b.x) ^ 2 + (a.y - b.y) ^ 2

/-- The test the source evaluates per dot in `GameState::update`:
`(*dot - self.pacman.pos).length() < CELL_SIZE * 0.5`.  Both sides are
nonnegative, so the comparison is embedded on squares. -/
def nearPlayer (pos dot : Vec2) : Bool :=
  decide (dist2 dot pos < (CELL_SIZE * (1/2)) ^ 2)

/-- The source's `self.pacman.direction.length() > 0.0`, embedded on the
squared length. -/
def lenPos (v : Vec2) : Bool := decide (0 < v.x ^ 2 + v.y ^ 2)

/-- Rust's `f32::clamp(lo, hi)`:
`if self < min { min } else if self > max { max } else { self }`. -/
def clampQ (x lo hi : ℚ) : ℚ := if x < lo then lo else if hi < x then hi else x

/-- Source enum `Direction`. -/
inductive Direction where
  | up
  | down
  | left
  | right
deriving DecidableEq, Repr

/-- Source `Direction::to_vec2`. -/
def Direction.toVec2 : Direction → Vec2
  | Direction.up => ⟨0, -1⟩
  | Direction.down => ⟨0, 1⟩
  | Direction.left => ⟨-1, 0⟩
  | Direction.right => ⟨1, 0⟩

/-- Source struct `DirectionController`. -/
structure DirectionController where
  queued_direction : Option Direction
  current_direction : Option Direction
deriving DecidableEq, Repr

/-- Source `DirectionController::new`. -/
def DirectionController.new : DirectionController := ⟨none, none⟩

/-- Source `DirectionController::queue_direction`. -/
def DirectionController.queue_direction (dc : DirectionController)
    (new_direction : Direction) : DirectionController :=
  { dc with queued_direction := some new_direction }

/-- Source `DirectionController::is_aligned_with_grid`:
`(cell_x.fract() < 0.1 || cell_x.fract() > 0.9) &&
 (cell_y.fract() < 0.1 || cell_y.fract() > 0.9)`. -/
def isAlignedWithGrid (position : Vec2) : Bool :=
  (decide (fract (position.x / CELL_SIZE) < 1/10) ||
   decide (9/10 < fract (position.x / CELL_SIZE))) &&
  (decide (fract (position.y / CELL_SIZE) < 1/10) ||
   decide (9/10 < fract (position.y / CELL_SIZE)))

/-- Source `DirectionController::update`, which mutates the controller and
returns the (possibly promoted) current direction; embedded as returning
the new controller paired with that return value. -/
def DirectionController.update (dc : DirectionController) (position : Vec2) :
    DirectionController × Option Direction :=
  if isAlignedWithGrid position then
    match dc.queued_direction with
    | some queued => (⟨none, some queued⟩, some queued)
    | none => (dc, dc.current_direction)
  else
    (dc, dc.current_direction)

/-- Source struct `GameObject` (the pacman entity). -/
structure GameObject where
  pos : Vec2
  direction : Vec2
  size : ℚ
  mouth_angle : ℚ
  mouth_opening : Bool
deriving DecidableEq, Repr

/-- Source struct `GameState`. -/
structure GameState where
  pacman : GameObject
  dots : List Vec2
  score : ℤ
  direction_controller : DirectionController
  game_won : Bool
deriving DecidableEq, Repr

/-- The dot grid that both `GameState::new` and `GameState::reset` build:
`for x in 1..GRID_SIZE-1 { for y in 1..GRID_SIZE-1 { push(x*CELL, y*CELL) } }`. -/
def initialDots : List Vec2 :=
  (List.range' 1 (GRID_SIZE - 2)).flatMap fun x =>
    (List.range' 1 (GRID_SIZE - 2)).map fun y =>
      ⟨(x : ℚ) * CELL_SIZE, (y : ℚ) * CELL_SIZE⟩

/-- Source `GameState::new`. -/
def GameState.new : GameState :=
  { pacman :=
      { pos := ⟨CELL_SIZE, (GRID_SIZE : ℚ) * CELL_SIZE / 2⟩
        direction := ⟨0, 0⟩
        size := CELL_SIZE * (8/10)
        mouth_angle := 0
        mouth_opening := true }
    dots := initialDots
    score := 0
    direction_controller := DirectionController.new
    game_won := false }

/-- Source `GameState::reset`: rebuilds the dot grid, restores position,
direction, score, flag, controller and mouth state.  (`pacman.size` is the
one field `reset` does not touch.) -/
def GameState.reset (s : GameState) : GameState :=
  { pacman :=
      { pos := ⟨CELL_SIZE, (GRID_SIZE : ℚ) * CELL_SIZE / 2⟩
        direction := ⟨0, 0⟩
        size := s.pacman.size
        mouth_angle := 0
        mouth_opening := true }
    dots := initialDots
    score := 0
    direction_controller := DirectionController.new
    game_won := false }

/-- The direction vector the tick applies: the controller's returned
current direction converted via `to_vec2` when present, otherwise the
previous `pacman.direction` (source lines 147-149). -/
def GameState.resolvedDir (s : GameState) : Vec2 :=
  match (s.direction_controller.update s.pacman.pos).2 with
  | some d => d.toVec2
  | none => s.pacman.direction

/-- The player position after integration and per-axis clamping
(source lines 151-162). -/
def GameState.movedPos (s : GameState) : Vec2 :=
  ⟨clampQ (s.pacman.pos.x + s.resolvedDir.x * PACMAN_SPEED)
      CELL_SIZE (CELL_SIZE * ((GRID_SIZE : ℚ) - 1)),
   clampQ (s.pacman.pos.y + s.resolvedDir.y * PACMAN_SPEED)
      CELL_SIZE (CELL_SIZE * ((GRID_SIZE : ℚ) - 1))⟩

/-- Powers of two as rationals, for both signs of the exponent. -/
def pow2 (e : ℤ) : ℚ :=
  if 0 ≤ e then ((2 ^ e.toNat : ℕ) : ℚ) else ((2 ^ (-e).toNat : ℕ) : ℚ)⁻¹

/-- Binary search for the binary exponent: narrows `[lo, hi)` keeping
`pow2 lo ≤ m < pow2 hi`, returning the final `lo`. -/
def findExpGo : ℕ → ℤ → ℤ → ℚ → ℤ
  | 0, lo, _, _ => lo
  | fuel + 1, lo, hi, m =>
    if hi ≤ lo + 1 then lo
    else
      let mid := (lo + hi) / 2
      if pow2 mid ≤ m then findExpGo fuel mid hi m
      else findExpGo fuel lo mid m

/-- The binary exponent `e` with `pow2 e ≤ m < pow2 (e + 1)`, correct for
every magnitude in `[2 ^ (-150), 2 ^ 150)`, which covers the whole
binary32 normal range. -/
def findExp (m : ℚ) : ℤ := findExpGo 20 (-150) 150 m

/-- IEEE-754 binary32 rounding (round to nearest, ties to even) of an
exact rational, for results in the normal range: the magnitude is scaled
into `[2 ^ 23, 2 ^ 24)`, rounded to an integer significand with ties to
even, and scaled back.  Overflow, subnormals and signed zero are not
modelled; the mouth oscillator stays in `(2 ^ (-26), 2)` and its exact
zeros are handled by the first branch, as in IEEE where `x - x = +0`. -/
def roundF32 (q : ℚ) : ℚ :=
  if q = 0 then 0
  else
    let m := if q < 0 then -q else q
    let e := findExp m
    let scaled := m * pow2 (23 - e)
    let n := ⌊scaled⌋
    let r := scaled - (n : ℚ)
    let n' := if r < 1/2 then n
              else if (1 : ℚ)/2 < r then n + 1
              else if n % 2 = 0 then n else n + 1
    (if q < 0 then (-1 : ℚ) else 1) * (n' : ℚ) * pow2 (e - 23)

/-- Binary32 addition: the exact sum, correctly rounded. -/
def fadd (a b : ℚ) : ℚ := roundF32 (a + b)

/-- Binary32 subtraction: the exact difference, correctly rounded. -/
def fsub (a b : ℚ) : ℚ := roundF32 (a - b)

/-- The mouth animation step (source lines 180-197), taking whether the
(updated) direction has positive length.  The `+=` and `-=` on the `f32`
mouth angle are binary32 operations, embedded through `fadd`/`fsub`. -/
def mouthStep (moving : Bool) (angle : ℚ) (opening : Bool) : ℚ × Bool :=
  if moving then
    if opening then
      let a := fadd angle MOUTH_SPEED
      (a, if MAX_MOUTH_ANGLE ≤ a then false else true)
    else
      let a := fsub angle MOUTH_SPEED
      (a, if a ≤ 0 then true else false)
  else
    (0, true)

/-- Source `GameState::update`: the whole simulation tick.  When the game
is won it returns immediately; otherwise it resolves the direction,
integrates and clamps the position, collects dots (each removed dot adds
10 to the score, mirrored by `countP`), sets the win flag if the dot set
became empty, and advances the mouth animation. -/
def GameState.update (s : GameState) : GameState :=
  if s.game_won then s
  else
    let dc := (s.direction_controller.update s.pacman.pos).1
    let dir := s.resolvedDir
    let pos := s.movedPos
    let dots := s.dots.filter fun d => !(nearPlayer pos d)
    let score := s.score + 10 * (s.dots.countP fun d => nearPlayer pos d)
    let won := if dots.isEmpty then true else s.game_won
    let m := mouthStep (lenPos dir) s.pacman.mouth_angle s.pacman.mouth_opening
    { pacman :=
        { pos := pos
          direction := dir
          size := s.pacman.size
          mouth_angle := m.1
          mouth_opening := m.2 }
      dots := dots
      score := score
      direction_controller := dc
      game_won := won }

/-- Source `key_down_event`: each of the four direction keys (or its WASD
twin) queues the corresponding direction on the controller. -/
def GameState.key_down (s : GameState) (d : Direction) : GameState :=
  { s with direction_controller := s.direction_controller.queue_direction d }

/-- States reachable from the freshly constructed game by ticks, key
presses, and resets (the mouse handler either does nothing or, on the
Play-Again button, calls `reset`). -/
inductive Reachable : GameState → Prop where
  | init : Reachable GameState.new
  | step {s : GameState} : Reachable s → Reachable s.update
  | reset {s : GameState} : Reachable s → Reachable s.reset
  | key {s : GameState} (d : Direction) : Reachable s → Reachable (s.key_down d)

/-- The won state used to witness C2: the initial state with the flag set. -/
def wonState : GameState := { GameState.new with game_won := true }

/-- Concrete state for the C3 witness: the player sits at the unaligned
position (35, 300) with a direction queued. -/
def c3State : GameState :=
  { pacman := { pos := ⟨35, 300⟩, direction := ⟨1, 0⟩, size := 24,
                mouth_angle := 0, mouth_opening := true },
    dots := [⟨570, 570⟩],
    score := 0,
    direction_controller := ⟨some Direction.up, some Direction.right⟩,
    game_won := false }

/-- Concrete state refuting the pre-tick reading of C1: the player at
(30, 300) moving right reaches (35, 300) during the tick; the dot at
(48, 300) is at pre-tick distance 18 but post-move distance 13, so the
code removes it although its pre-tick distance exceeds the threshold 15. -/
def c1CexState : GameState :=
  { pacman := { pos := ⟨30, 300⟩, direction := ⟨1, 0⟩, size := 24,
                mouth_angle := 0, mouth_opening := true },
    dots := [⟨48, 300⟩],
    score := 0,
    direction_controller := ⟨none, some Direction.right⟩,
    game_won := false }

/-- Concrete state for C9 (and the C1 witness): stationary player at
(30, 30) with a dot at the same point. -/
def c9State : GameState :=
  { pacman := { pos := ⟨30, 30⟩, direction := ⟨0, 0⟩, size := 24,
                mouth_angle := 0, mouth_opening := true },
    dots := [⟨30, 30⟩],
    score := 0,
    direction_controller := ⟨none, none⟩,
    game_won := false }

/-- Concrete state refuting the mouth bound of C8: a moving player whose
mouth angle `2 ^ (-25)` (the value binary32 leaves after five closing
steps from 1.0, still `> 0`) is about to take a sixth closing step, which
lands at `-13421771 * 2 ^ (-26) = -0.19999997...`, below 0.  This mouth
state occurs on every real run with eleven consecutive moving ticks. -/
def mouthCexState : GameState :=
  { pacman := { pos := ⟨35, 300⟩, direction := ⟨1, 0⟩, size := 24,
                mouth_angle := 1/33554432, mouth_opening := false },
    dots := [⟨570, 570⟩],
    score := 0,
    direction_controller := ⟨none, some Direction.right⟩,
    game_won := false }

/-- The mouth states the binary32 oscillator produces: the forward orbit
of the start/reset state (angle 0, opening) under the moving step.  The
orbit enters a 12-cycle after three steps; angles are exact binary32
values.  The opening ascent from 0 hits 1.0 exactly, but the closing
descent leaves `2 ^ (-25)` after five steps, so the sense only reverses
one step later, at `-13421771 / 2 ^ 26`. -/
def mouthOrbit : List (ℚ × Bool) :=
  [ (0, true),
    (13421773 / 67108864, true),
    (13421773 / 33554432, true),
    (5033165 / 8388608, true),
    (13421773 / 16777216, true),
    (1, false),
    (13421773 / 16777216, false),
    (5033165 / 8388608, false),
    (6710887 / 16777216, false),
    (13421775 / 67108864, false),
    (1 / 33554432, false),
    (-13421771 / 67108864, true),
    (1 / 33554432, true),
    (13421775 / 67108864, true),
    (6710887 / 16777216, true) ]

/-- A mouth state the oscillator can actually produce: membership of the
angle/sense pair in `mouthOrbit`. -/
def MouthReach (g : GameObject) : Prop :=
  (g.mouth_angle, g.mouth_opening) ∈ mouthOrbit

instance (g : GameObject) : Decidable (MouthReach g) := by
  unfold MouthReach
  infer_instance

/-! Helper lemmas shared by the claim theorems. -/

/-- A tick in a won game returns the state unchanged (source lines 142-144). -/
lemma update_of_won {s : GameState} (h : s.game_won = true) : s.update = s := by
  simp [GameState.update, h]

/-- The kept dots plus the removed dots account for the whole dot list. -/
lemma length_filter_not_add_countP (p : Vec2 → Bool) (l : List Vec2) :
    (l.filter fun d => !(p d)).length + l.countP p = l.length := by
  induction l with
  | nil => rfl
  | cons a l ih =>
    by_cases h : p a <;>
      simp [List.filter_cons, List.countP_cons, h] <;> omega

/-- C2: once the game-won flag is true, any number of further ticks leaves
the entire state (position, direction, dots, score, controller, mouth
state and the flag itself) unchanged, until an explicit reset. -/
theorem won_tick_noop (s : GameState) (n : ℕ) (h : s.game_won = true) :
    GameState.update^[n] s = s := by
  induction n with
  | zero => rfl
  | succ n ih => rw [Function.iterate_succ_apply, update_of_won h, ih]

/-- Witness for C2 at a concrete won state and three ticks. -/
theorem won_tick_noop_witness :
    wonState.game_won = true ∧ GameState.update^[3] wonState = wonState :=
  ⟨rfl, won_tick_noop wonState 3 rfl⟩

/-- C3: the applied direction `current_direction` never changes on a tick
taken from a position that is not grid-aligned (fractional cell coordinate
not within 0.1 of an integer on both axes). -/
theorem current_direction_stable_unaligned (s : GameState)
    (h : isAlignedWithGrid s.pacman.pos = false) :
    (s.update).direction_controller.current_direction =
      s.direction_controller.current_direction := by
  by_cases hw : s.game_won = true
  · rw [update_of_won hw]
  · simp only [Bool.not_eq_true] at hw
    simp [GameState.update, hw, DirectionController.update, h]

/-- Witness for C3: a state at the unaligned position (35, 300), with a
direction queued, keeps its current direction over the tick. -/
theorem current_direction_stable_unaligned_witness :
    isAlignedWithGrid c3State.pacman.pos = false ∧
      (c3State.update).direction_controller.current_direction =
        c3State.direction_controller.current_direction :=
  ⟨by decide, current_direction_stable_unaligned c3State (by decide)⟩

/-- C5: the score never decreases over a tick. -/
theorem score_monotone (s : GameState) : s.score ≤ (s.update).score := by
  by_cases hw : s.game_won = true
  · rw [update_of_won hw]
  · simp only [Bool.not_eq_true] at hw
    simp only [GameState.update, hw, Bool.false_eq_true, if_false]
    have : (0 : ℤ) ≤ 10 * (s.dots.countP fun d => nearPlayer s.movedPos d) := by
      positivity
    omega

/-- Unfolding of a tick in a game that is not yet won, in terms of the
component definitions. -/
lemma update_eq (s : GameState) (hw : s.game_won = false) :
    s.update =
      { pacman :=
          { pos := s.movedPos,
            direction := s.resolvedDir,
            size := s.pacman.size,
            mouth_angle :=
              (mouthStep (lenPos s.resolvedDir) s.pacman.mouth_angle
                s.pacman.mouth_opening).1,
            mouth_opening :=
              (mouthStep (lenPos s.resolvedDir) s.pacman.mouth_angle
                s.pacman.mouth_opening).2 },
        dots := s.dots.filter fun d => !(nearPlayer s.movedPos d),
        score := s.score + 10 * (s.dots.countP fun d => nearPlayer s.movedPos d),
        direction_controller := (s.direction_controller.update s.pacman.pos).1,
        game_won :=
          if (s.dots.filter fun d => !(nearPlayer s.movedPos d)).isEmpty then
            true
          else s.game_won } := by
  simp [GameState.update, hw]

/-- A clamped value lies in the clamping interval when the interval is
nonempty. -/
lemma clampQ_mem (x lo hi : ℚ) (h : lo ≤ hi) :
    lo ≤ clampQ x lo hi ∧ clampQ x lo hi ≤ hi := by
  unfold clampQ
  split_ifs <;> constructor <;> linarith

/-- Comparing a Euclidean length against a positive bound is comparing the
squared length against the squared bound. -/
lemma sqrt_dist2_lt_iff (a b : Vec2) (t : ℚ) (ht : 0 < t) :
    Real.sqrt ((dist2 a b : ℚ) : ℝ) < (t : ℝ) ↔ dist2 a b < t ^ 2 := by
  rw [Real.sqrt_lt' (by exact_mod_cast ht)]
  constructor <;> intro h <;> exact_mod_cast h

/-- C6: a tick in a game that is not won moves the player by the resolved
direction times `PACMAN_SPEED` and clamps each axis into
`[CELL_SIZE, CELL_SIZE * (GRID_SIZE - 1)]`, so the resulting coordinates
lie in that interval. -/
theorem tick_position_integrate_clamp (s : GameState) (hw : s.game_won = false) :
    (s.update).pacman.pos =
      ⟨clampQ (s.pacman.pos.x + s.resolvedDir.x * PACMAN_SPEED)
          CELL_SIZE (CELL_SIZE * ((GRID_SIZE : ℚ) - 1)),
        clampQ (s.pacman.pos.y + s.resolvedDir.y * PACMAN_SPEED)
          CELL_SIZE (CELL_SIZE * ((GRID_SIZE : ℚ) - 1))⟩ ∧
      CELL_SIZE ≤ (s.update).pacman.pos.x ∧
      (s.update).pacman.pos.x ≤ CELL_SIZE * ((GRID_SIZE : ℚ) - 1) ∧
      CELL_SIZE ≤ (s.update).pacman.pos.y ∧
      (s.update).pacman.pos.y ≤ CELL_SIZE * ((GRID_SIZE : ℚ) - 1) := by
  have hb : CELL_SIZE ≤ CELL_SIZE * ((GRID_SIZE : ℚ) - 1) := by
    norm_num [CELL_SIZE, GRID_SIZE]
  rw [update_eq s hw]
  refine ⟨rfl, ?_, ?_, ?_, ?_⟩
  · exact (clampQ_mem _ _ _ hb).1
  · exact (clampQ_mem _ _ _ hb).2
  · exact (clampQ_mem _ _ _ hb).1
  · exact (clampQ_mem _ _ _ hb).2

/-- Witness for C6 at the initial state. -/
theorem tick_position_integrate_clamp_witness :
    GameState.new.game_won = false ∧
      ((GameState.new.update).pacman.pos =
        ⟨clampQ (GameState.new.pacman.pos.x +
              GameState.new.resolvedDir.x * PACMAN_SPEED)
            CELL_SIZE (CELL_SIZE * ((GRID_SIZE : ℚ) - 1)),
          clampQ (GameState.new.pacman.pos.y +
              GameState.new.resolvedDir.y * PACMAN_SPEED)
            CELL_SIZE (CELL_SIZE * ((GRID_SIZE : ℚ) - 1))⟩ ∧
        CELL_SIZE ≤ (GameState.new.update).pacman.pos.x ∧
        (GameState.new.update).pacman.pos.x ≤ CELL_SIZE * ((GRID_SIZE : ℚ) - 1) ∧
        CELL_SIZE ≤ (GameState.new.update).pacman.pos.y ∧
        (GameState.new.update).pacman.pos.y ≤ CELL_SIZE * ((GRID_SIZE : ℚ) - 1)) :=
  ⟨rfl, tick_position_integrate_clamp GameState.new rfl⟩

/-- C7: a tick in a game that is not won sets the game-won flag exactly
when the dot set left after that tick's collection is empty. -/
theorem win_flag_iff_dots_empty (s : GameState) (hw : s.game_won = false) :
    (s.update).game_won = true ↔ (s.update).dots = [] := by
  rw [update_eq s hw]
  simp [hw, List.isEmpty_iff]

/-- Witness for C7 at the initial state. -/
theorem win_flag_iff_dots_empty_witness :
    GameState.new.game_won = false ∧
      ((GameState.new.update).game_won = true ↔ (GameState.new.update).dots = []) :=
  ⟨rfl, win_flag_iff_dots_empty GameState.new rfl⟩

/-- C1 (amended): a tick in a game that is not won removes a dot exactly
when the Euclidean distance from the player's post-movement position of
that same tick (not the pre-tick position) to the dot is below
`CELL_SIZE * 0.5`, and the score grows by 10 per removed dot. -/
theorem collect_iff_close_post_move (s : GameState) (dot : Vec2)
    (hw : s.game_won = false) (hd : dot ∈ s.dots) :
    (dot ∉ (s.update).dots ↔
      Real.sqrt ((dist2 dot s.movedPos : ℚ) : ℝ) < ((CELL_SIZE * (1/2) : ℚ) : ℝ)) ∧
    (s.update).score =
      s.score + 10 * ((s.dots.length : ℤ) - ((s.update).dots.length : ℤ)) := by
  constructor
  · rw [update_eq s hw,
      sqrt_dist2_lt_iff dot s.movedPos (CELL_SIZE * (1/2)) (by norm_num [CELL_SIZE])]
    simp [List.mem_filter, hd, nearPlayer]
  · rw [update_eq s hw]
    have h := length_filter_not_add_countP (fun d => nearPlayer s.movedPos d) s.dots
    simp only []
    omega

/-- Witness for C1 at a stationary player sitting on a dot. -/
theorem collect_iff_close_post_move_witness :
    c9State.game_won = false ∧ (⟨30, 30⟩ : Vec2) ∈ c9State.dots ∧
      (((⟨30, 30⟩ : Vec2) ∉ (c9State.update).dots ↔
        Real.sqrt ((dist2 ⟨30, 30⟩ c9State.movedPos : ℚ) : ℝ) <
          ((CELL_SIZE * (1/2) : ℚ) : ℝ)) ∧
      (c9State.update).score =
        c9State.score +
          10 * ((c9State.dots.length : ℤ) - ((c9State.update).dots.length : ℤ))) :=
  ⟨rfl, by decide, collect_iff_close_post_move c9State ⟨30, 30⟩ rfl (by decide)⟩

/-- Counterexample to C1 as stated: in `c1CexState` the dot (48, 300) is
at pre-tick Euclidean distance 18 from the player, not below the
threshold 15, yet the tick removes it (the player moves to (35, 300)
first, and 13 < 15). -/
theorem collect_pre_tick_cex :
    c1CexState.game_won = false ∧
      (⟨48, 300⟩ : Vec2) ∈ c1CexState.dots ∧
      ¬ Real.sqrt ((dist2 ⟨48, 300⟩ c1CexState.pacman.pos : ℚ) : ℝ) <
          ((CELL_SIZE * (1/2) : ℚ) : ℝ) ∧
      (⟨48, 300⟩ : Vec2) ∉ (c1CexState.update).dots := by
  refine ⟨rfl, by decide, ?_, by decide⟩
  have h1 : (dist2 ⟨48, 300⟩ c1CexState.pacman.pos : ℚ) = 324 := by
    norm_num [dist2, c1CexState]
  have h2 : ((CELL_SIZE * (1/2) : ℚ) : ℝ) = 15 := by
    norm_num [CELL_SIZE]
  rw [h1, h2]
  have h3 : ((324 : ℚ) : ℝ) = (18 : ℝ) ^ 2 := by norm_num
  rw [h3, Real.sqrt_sq (by norm_num : (0:ℝ) ≤ 18)]
  norm_num

/-- C9: from the state with the player at (30, 30), zero direction, and a
dot at (30, 30), one tick removes that dot and adds exactly 10 to the
score (the distance 0 is below the collection threshold). -/
theorem example_tick_collects_dot :
    (⟨30, 30⟩ : Vec2) ∈ c9State.dots ∧
      (⟨30, 30⟩ : Vec2) ∉ (c9State.update).dots ∧
      (c9State.update).score = c9State.score + 10 := by
  decide

/-- The orbit is closed under a moving binary32 mouth step, with the
stepped angle above `-MOUTH_SPEED` and at most `MAX_MOUTH_ANGLE`:
checked by evaluating the step on each of the 15 orbit states. -/
lemma mouthOrbit_closed :
    ∀ p ∈ mouthOrbit,
      ((mouthStep true p.1 p.2).1, (mouthStep true p.1 p.2).2) ∈ mouthOrbit ∧
        -MOUTH_SPEED < (mouthStep true p.1 p.2).1 ∧
        (mouthStep true p.1 p.2).1 ≤ MAX_MOUTH_ANGLE := by
  decide

/-- One binary32 mouth-animation step starting from an orbit state lands
back in the orbit, and in particular the angle stays above
`-MOUTH_SPEED` and at most `MAX_MOUTH_ANGLE`. -/
lemma mouthStep_reach (mv o : Bool) (a : ℚ) (h : (a, o) ∈ mouthOrbit) :
    ((mouthStep mv a o).1, (mouthStep mv a o).2) ∈ mouthOrbit ∧
      -MOUTH_SPEED < (mouthStep mv a o).1 ∧
      (mouthStep mv a o).1 ≤ MAX_MOUTH_ANGLE := by
  cases mv
  · exact ⟨(by decide : ((0 : ℚ), true) ∈ mouthOrbit),
      (by decide : -MOUTH_SPEED < (0 : ℚ)),
      (by decide : (0 : ℚ) ≤ MAX_MOUTH_ANGLE)⟩
  · exact mouthOrbit_closed (a, o) h

/-- C8 (amended): on a tick in a game that is not won, starting from a
mouth state the binary32 oscillator can produce, a moving player advances
the mouth angle by the f32-rounded step `MOUTH_SPEED` in the current
sense, the sense reverses exactly when the stepped angle reaches
`MAX_MOUTH_ANGLE` (opening) or drops to 0 or below (closing), a
stationary player resets to angle 0 and opening, and the new angle stays
within `(-MOUTH_SPEED, MAX_MOUTH_ANGLE]` (and is again a state the
oscillator can produce). -/
theorem mouth_oscillation (s : GameState) (hw : s.game_won = false)
    (hm : MouthReach s.pacman) :
    (lenPos s.resolvedDir = true → s.pacman.mouth_opening = true →
      (s.update).pacman.mouth_angle = fadd s.pacman.mouth_angle MOUTH_SPEED ∧
      ((s.update).pacman.mouth_opening = false ↔
        MAX_MOUTH_ANGLE ≤ fadd s.pacman.mouth_angle MOUTH_SPEED)) ∧
    (lenPos s.resolvedDir = true → s.pacman.mouth_opening = false →
      (s.update).pacman.mouth_angle = fsub s.pacman.mouth_angle MOUTH_SPEED ∧
      ((s.update).pacman.mouth_opening = true ↔
        fsub s.pacman.mouth_angle MOUTH_SPEED ≤ 0)) ∧
    (lenPos s.resolvedDir = false →
      (s.update).pacman.mouth_angle = 0 ∧
      (s.update).pacman.mouth_opening = true) ∧
    -MOUTH_SPEED < (s.update).pacman.mouth_angle ∧
    (s.update).pacman.mouth_angle ≤ MAX_MOUTH_ANGLE ∧
    MouthReach (s.update).pacman := by
  have hr := mouthStep_reach (lenPos s.resolvedDir) s.pacman.mouth_opening
      s.pacman.mouth_angle hm
  rw [update_eq s hw]
  dsimp only
  refine ⟨?_, ?_, ?_, hr.2.1, hr.2.2, hr.1⟩
  · intro hmv hop
    rw [hmv, hop]
    constructor
    · simp [mouthStep]
    · by_cases hc : MAX_MOUTH_ANGLE ≤ fadd s.pacman.mouth_angle MOUTH_SPEED <;>
        simp [mouthStep, hc]
  · intro hmv hop
    rw [hmv, hop]
    constructor
    · simp [mouthStep]
    · by_cases hc : fsub s.pacman.mouth_angle MOUTH_SPEED ≤ 0 <;>
        simp [mouthStep, hc]
  · intro hmv
    rw [hmv]
    simp [mouthStep]

/-- Counterexample to C8 as stated: from the mouth state with angle
`2 ^ (-25)` while closing -- a state the binary32 oscillator reaches on
every run with eleven consecutive moving ticks, hence in `mouthOrbit` --
a moving tick produces the angle `-13421771 / 2 ^ 26 = -0.19999997...`,
below 0 and so outside `[0, MAX_MOUTH_ANGLE]`. -/
theorem mouth_bound_cex :
    mouthCexState.game_won = false ∧ MouthReach mouthCexState.pacman ∧
      (mouthCexState.update).pacman.mouth_angle < 0 :=
  ⟨rfl, by decide, by decide⟩

/-- Witness for C8 at the initial state (stationary player, mouth shut). -/
theorem mouth_oscillation_witness :
    GameState.new.game_won = false ∧ MouthReach GameState.new.pacman ∧
      ((lenPos GameState.new.resolvedDir = true →
          GameState.new.pacman.mouth_opening = true →
        (GameState.new.update).pacman.mouth_angle =
          fadd GameState.new.pacman.mouth_angle MOUTH_SPEED ∧
        ((GameState.new.update).pacman.mouth_opening = false ↔
          MAX_MOUTH_ANGLE ≤ fadd GameState.new.pacman.mouth_angle MOUTH_SPEED)) ∧
      (lenPos GameState.new.resolvedDir = true →
          GameState.new.pacman.mouth_opening = false →
        (GameState.new.update).pacman.mouth_angle =
          fsub GameState.new.pacman.mouth_angle MOUTH_SPEED ∧
        ((GameState.new.update).pacman.mouth_opening = true ↔
          fsub GameState.new.pacman.mouth_angle MOUTH_SPEED ≤ 0)) ∧
      (lenPos GameState.new.resolvedDir = false →
        (GameState.new.update).pacman.mouth_angle = 0 ∧
        (GameState.new.update).pacman.mouth_opening = true) ∧
      -MOUTH_SPEED < (GameState.new.update).pacman.mouth_angle ∧
      (GameState.new.update).pacman.mouth_angle ≤ MAX_MOUTH_ANGLE ∧
      MouthReach (GameState.new.update).pacman) :=
  ⟨rfl, by decide, mouth_oscillation GameState.new rfl (by decide)⟩

/-- Ticks, resets and key presses never change the player size, so every
reachable state keeps the initial size. -/
lemma reachable_size {s : GameState} (h : Reachable s) :
    s.pacman.size = CELL_SIZE * (8/10) := by
  induction h with
  | init => rfl
  | step h ih =>
    rename_i t
    by_cases hw : t.game_won = true
    · rw [update_of_won hw]
      exact ih
    · simp only [Bool.not_eq_true] at hw
      rw [update_eq t hw]
      exact ih
  | reset h ih => exact ih
  | key d h ih => exact ih

/-- C4: resetting any reachable state yields exactly the freshly
constructed initial state (initial dot grid, zero score, initial
position, cleared flag, and every other field). -/
theorem reset_eq_initial (s : GameState) (h : Reachable s) :
    s.reset = GameState.new := by
  have hs := reachable_size h
  simp [GameState.reset, GameState.new, hs]

/-- Witness for C4 at the initial state itself. -/
theorem reset_eq_initial_witness :
    Reachable GameState.new ∧ GameState.new.reset = GameState.new :=
  ⟨Reachable.init, reset_eq_initial GameState.new Reachable.init⟩

set_option maxRecDepth 4000 in
/-- The initial grid holds one dot per interior cell:
`(GRID_SIZE - 2) ^ 2 = 324` of them. -/
lemma initialDots_length : initialDots.length = 324 := by decide

/-- The conserved quantity behind C10: score plus 10 per remaining dot. -/
lemma score_dots_sum {s : GameState} (h : Reachable s) :
    s.score + 10 * (s.dots.length : ℤ) = 3240 := by
  induction h with
  | init =>
    show (0 : ℤ) + 10 * (initialDots.length : ℤ) = 3240
    rw [initialDots_length]
    norm_num
  | step h ih =>
    rename_i t
    by_cases hw : t.game_won = true
    · rw [update_of_won hw]
      exact ih
    · simp only [Bool.not_eq_true] at hw
      rw [update_eq t hw]
      have hc := length_filter_not_add_countP (fun d => nearPlayer t.movedPos d) t.dots
      dsimp only
      omega
  | reset h ih =>
    show (0 : ℤ) + 10 * (initialDots.length : ℤ) = 3240
    rw [initialDots_length]
    norm_num
  | key d h ih => exact ih

/-- C10: in every reachable state, score plus 10 per remaining dot equals
`10 * (GRID_SIZE - 2) ^ 2 = 3240`; hence the score is a multiple of 10
and never exceeds 3240. -/
theorem score_dots_invariant (s : GameState) (h : Reachable s) :
    s.score + 10 * (s.dots.length : ℤ) = 10 * ((GRID_SIZE : ℤ) - 2) ^ 2 ∧
      10 * ((GRID_SIZE : ℤ) - 2) ^ 2 = 3240 ∧
      (10 : ℤ) ∣ s.score ∧ s.score ≤ 3240 := by
  have hs := score_dots_sum h
  refine ⟨by rw [hs]; decide, by decide, ⟨324 - (s.dots.length : ℤ), by omega⟩, by omega⟩

/-- Witness for C10 at the initial state. -/
theorem score_dots_invariant_witness :
    Reachable GameState.new ∧
      (GameState.new.score + 10 * (GameState.new.dots.length : ℤ) =
          10 * ((GRID_SIZE : ℤ) - 2) ^ 2 ∧
        10 * ((GRID_SIZE : ℤ) - 2) ^ 2 = 3240 ∧
        (10 : ℤ) ∣ GameState.new.score ∧ GameState.new.score ≤ 3240) :=
  ⟨Reachable.init, score_dots_invariant GameState.new Reachable.init⟩

/-- Every reachable state's mouth is in a state the oscillator produces,
so the amended C8 hypothesis holds along every actual run. -/
lemma reachable_mouth {s : GameState} (h : Reachable s) :
    MouthReach s.pacman := by
  induction h with
  | init => decide
  | step h ih =>
    rename_i t
    by_cases hw : t.game_won = true
    · rw [update_of_won hw]
      exact ih
    · simp only [Bool.not_eq_true] at hw
      have hr := mouthStep_reach (lenPos t.resolvedDir) t.pacman.mouth_opening
          t.pacman.mouth_angle ih
      rw [update_eq t hw]
      exact hr.1
  | reset h ih => exact (by decide : ((0 : ℚ), true) ∈ mouthOrbit)
  | key d h ih => exact ih
